import Mathlib

/-!
Shallow embedding of the filter-and-derive pipeline of `src/app.py`
(a streamlit healthcare dashboard).

The embedding covers:
* `load_data` (lines 18-34): date parsing with coercion to null, the
  `length_of_stay` derivation and the `clip(lower=0)` on billing amounts;
* the sidebar filters (lines 89-95): optional year filter on the admission
  date's year, optional medical-condition filter, inclusive age range;
* the quick-stats metrics (lines 104-117): pandas means, which are NaN on
  an empty series;
* the `pd.cut` age bucketing (lines 303-305) with pandas' default
  `right=True` semantics (intervals are low-exclusive, high-inclusive);
* a small object store modelling python object identity, so that the
  `df.copy()` on line 90 and the in-place column assignment on line 305
  can be stated as a frame property on the cached table.

Dates are modelled as a calendar year together with an absolute day
number; `pd.to_datetime(..., errors='coerce')` turns an unparseable field
into null, which the embedding represents as `Option` being `none`.
Currency amounts are rationals.
-/

/-- A parsed date: the calendar year (what `.dt.year` reads) and the
absolute day number (what timestamp subtraction and `.dt.days` read). -/
structure PDate where
  year : ℤ
  day : ℤ
deriving DecidableEq

/-- A raw row of the CSV after column-name normalization, with the two
date fields already sent through `pd.to_datetime(..., errors='coerce')`:
`none` is the null (`NaT`) a parse failure coerces to.  Only the fields
the dashboard logic touches are modelled. -/
structure RawRecord where
  date_of_admission : Option PDate
  discharge_date : Option PDate
  age : ℤ
  medical_condition : String
  test_results : String
  billing_amount : ℚ
deriving DecidableEq

/-- A loaded row: the raw fields plus the two derivations of
`load_data` (`length_of_stay` on line 29, the billing clip on line 32). -/
structure Record where
  date_of_admission : Option PDate
  discharge_date : Option PDate
  age : ℤ
  medical_condition : String
  test_results : String
  billing_amount : ℚ
  length_of_stay : Option ℤ
deriving DecidableEq

/-- Lines 29 and 32 of `load_data`:
`df['length_of_stay'] = (df['discharge_date'] - df['date_of_admission']).dt.days`
is null when either date is null, and the whole-day difference otherwise;
`df['billing_amount'] = df['billing_amount'].clip(lower=0)`. -/
def loadRecord (r : RawRecord) : Record :=
  { date_of_admission := r.date_of_admission
    discharge_date := r.discharge_date
    age := r.age
    medical_condition := r.medical_condition
    test_results := r.test_results
    billing_amount := max r.billing_amount 0
    length_of_stay :=
      match r.discharge_date, r.date_of_admission with
      | some d, some a => some (d.day - a.day)
      | _, _ => none }

/-- The sidebar selections: `year = none` is the "Semua Tahun" sentinel,
`condition = none` is "Semua Kondisi", and `(ageLo, ageHi)` is the value
of the age-range slider. -/
structure FilterCfg where
  year : Option ℤ
  condition : Option String
  ageLo : ℤ
  ageHi : ℤ
deriving DecidableEq

/-- Line 92: `filtered_df['date_of_admission'].dt.year == year_filter`.
A null admission date has no year, so it never equals the selected year. -/
def yearMatches (y : ℤ) (r : Record) : Bool :=
  r.date_of_admission.map PDate.year == some y

/-- Line 94: `filtered_df['medical_condition'] == condition_filter`. -/
def condMatches (c : String) (r : Record) : Bool :=
  r.medical_condition == c

/-- Line 95: `(filtered_df['age'] >= age_range[0]) & (filtered_df['age'] <= age_range[1])`. -/
def ageMatches (lo hi : ℤ) (r : Record) : Bool :=
  decide (lo ≤ r.age) && decide (r.age ≤ hi)

/-- Lines 91-92: the year filter runs only when a specific year is selected. -/
def stepYear (cfg : FilterCfg) (t : List Record) : List Record :=
  match cfg.year with
  | none => t
  | some y => t.filter (yearMatches y)

/-- Lines 93-94: the condition filter runs only when a specific condition is selected. -/
def stepCond (cfg : FilterCfg) (t : List Record) : List Record :=
  match cfg.condition with
  | none => t
  | some c => t.filter (condMatches c)

/-- Line 95: the age-range filter always runs. -/
def stepAge (cfg : FilterCfg) (t : List Record) : List Record :=
  t.filter (ageMatches cfg.ageLo cfg.ageHi)

/-- Lines 90-95: `filtered_df = df.copy()` (a value-level copy is the
identity on the contents) followed by the three filters in program order:
year, condition, age. -/
def applyFilters (t : List Record) (cfg : FilterCfg) : List Record :=
  stepAge cfg (stepCond cfg (stepYear cfg t))

/-- The conjunction of the three predicates, inactive ones read as true. -/
def fullPred (cfg : FilterCfg) (r : Record) : Bool :=
  (match cfg.year with | none => true | some y => yearMatches y r) &&
  (match cfg.condition with | none => true | some c => condMatches c r) &&
  ageMatches cfg.ageLo cfg.ageHi r

/-- A pandas float scalar: either NaN or an actual numeric value.  The
mean of an empty series is NaN. -/
inductive PFloat where
  | nan : PFloat
  | val : ℚ → PFloat
deriving DecidableEq

/-- The mean of a pandas numeric series (the null entries having already
been dropped): NaN when the series is empty. -/
def seriesMean (xs : List ℚ) : PFloat :=
  if xs.isEmpty then PFloat.nan else PFloat.val (xs.sum / xs.length)

/-- Line 105: `filtered_df['length_of_stay'].mean()` — pandas mean skips
null entries, and is NaN when nothing remains. -/
def avgStay (t : List Record) : PFloat :=
  seriesMean (t.filterMap (fun r => r.length_of_stay.map (fun n => (n : ℚ))))

/-- Line 110: `filtered_df['billing_amount'].mean()`. -/
def avgBill (t : List Record) : PFloat :=
  seriesMean (t.map Record.billing_amount)

/-- Multiplication of a pandas float by a constant: NaN is absorbing. -/
def pfScale (c : ℚ) : PFloat → PFloat
  | PFloat.nan => PFloat.nan
  | PFloat.val q => PFloat.val (c * q)

/-- Line 115: `(filtered_df['test_results'] == 'Normal').mean() * 100` —
the mean of the boolean indicator series, scaled to a percentage; the
mean of an empty series is NaN and NaN stays NaN under scaling. -/
def recoveryRate (t : List Record) : PFloat :=
  pfScale 100 (seriesMean (t.map (fun r => if r.test_results == "Normal" then (1 : ℚ) else 0)))

/-- `pd.cut(values, bins, labels)` with the pandas defaults
`right=True, include_lowest=False`: the intervals are `(bins[i], bins[i+1]]`
(low exclusive, high inclusive) and a value in no interval becomes null.
The bins are searched in order; for ascending bins this matches pandas. -/
def pdCut (v : ℤ) : List ℤ → List String → Option String
  | lo :: hi :: bs, l :: ls =>
      if lo < v ∧ v ≤ hi then some l else pdCut v (hi :: bs) ls
  | _, _ => none

/-- Line 303: `age_bins = [0, 18, 35, 50, 65, 100]`. -/
def ageBins : List ℤ := [0, 18, 35, 50, 65, 100]

/-- Line 304: the five age-group labels. -/
def ageLabels : List String :=
  ["Anak (0-18)", "Dewasa Muda (19-35)", "Dewasa (36-50)", "Lansia (51-65)", "Manula (65+)"]

/-- Line 305 applied to a list of ages: `pd.cut(filtered_df['age'], bins=age_bins, labels=age_labels)`.
The output column has one entry per input value; null marks an unbucketed value. -/
def bucketAges (vs : List ℤ) : List (Option String) :=
  vs.map (fun v => pdCut v ageBins ageLabels)

/-- The bucketing semantics as the spec words it: intervals
`[bins[i], bins[i+1])` low inclusive and high exclusive, except the final
interval whose upper bound is inclusive.  Used only to compare the spec's
reading against `pdCut`. -/
def specBucket (v : ℤ) : List ℤ → List String → Option String
  | [lo, hi], [l] => if lo ≤ v ∧ v ≤ hi then some l else none
  | lo :: hi :: bs, l :: ls =>
      if lo ≤ v ∧ v < hi then some l else specBucket v (hi :: bs) ls
  | _, _ => none

/-- Membership of `v` in the `i`-th age bucket under the code's
(low-exclusive, high-inclusive) semantics. -/
def ageInterval (i : ℕ) (v : ℤ) : Prop :=
  ∃ lo hi, ageBins.get? i = some lo ∧ ageBins.get? (i + 1) = some hi ∧ lo < v ∧ v ≤ hi

/-- A dataframe object: its rows, plus the `kelompok_usia` column once
line 305 has assigned it. -/
structure PyTable where
  rows : List Record
  kelompokUsia : Option (List (Option String))
deriving DecidableEq

/-- A store of python dataframe objects, keyed by object identity.  The
filtering expressions on lines 90-95 each build a fresh object and rebind
the `filtered_df` name to it; the column assignment on line 305 mutates
the object `filtered_df` is bound to, in place. -/
structure PyState where
  heap : List (ℕ × PyTable)
  next : ℕ

/-- Read the object stored under an identity. -/
def hRead (h : List (ℕ × PyTable)) (i : ℕ) : Option PyTable :=
  (h.find? (fun p => p.1 == i)).map Prod.snd

/-- Mutate the object stored under an identity, in place. -/
def hWrite (h : List (ℕ × PyTable)) (i : ℕ) (t : PyTable) : List (ℕ × PyTable) :=
  h.map (fun p => if p.1 == i then (i, t) else p)

/-- Allocate a fresh object, returning its identity. -/
def hAlloc (s : PyState) (t : PyTable) : PyState × ℕ :=
  (⟨s.heap ++ [(s.next, t)], s.next + 1⟩, s.next)

/-- The session pipeline as the program mutates state: the cached table
`df` lives at identity 0; line 90 allocates a copy; lines 91-95 each
allocate a fresh filtered object and rebind `filtered_df`; line 305
assigns the `kelompok_usia` column in place on the object `filtered_df`
is bound to.  Returns the final state and the identity `filtered_df`
ends bound to. -/
def dashboardPipeline (df : List Record) (cfg : FilterCfg) : PyState × ℕ :=
  let s0 : PyState := ⟨[(0, ⟨df, none⟩)], 1⟩
  let p1 := hAlloc s0 ⟨df, none⟩
  let p2 :=
    match cfg.year with
    | none => p1
    | some _y => hAlloc p1.1 ⟨(stepYear cfg df), none⟩
  let p3 :=
    match cfg.condition with
    | none => p2
    | some _c => hAlloc p2.1 ⟨(stepCond cfg (stepYear cfg df)), none⟩
  let rows := applyFilters df cfg
  let p4 := hAlloc p3.1 ⟨rows, none⟩
  let s5 : PyState :=
    ⟨hWrite p4.1.heap p4.2 ⟨rows, some (bucketAges (rows.map Record.age))⟩, p4.1.next⟩
  (s5, p4.2)

/-- The first example row of testable property 6: year 2022, Diabetes, age 30. -/
def row2022 : Record :=
  { date_of_admission := some ⟨2022, 19100⟩
    discharge_date := some ⟨2022, 19105⟩
    age := 30
    medical_condition := "Diabetes"
    test_results := "Normal"
    billing_amount := 100
    length_of_stay := some 5 }

/-- The second example row of testable property 6: year 2023, Diabetes, age 70. -/
def row2023 : Record :=
  { date_of_admission := some ⟨2023, 19500⟩
    discharge_date := some ⟨2023, 19512⟩
    age := 70
    medical_condition := "Diabetes"
    test_results := "Abnormal"
    billing_amount := 2500
    length_of_stay := some 12 }

/-- The example table of testable property 6. -/
def exampleTable : List Record := [row2022, row2023]

/-- The example predicate configuration: year 2022, all conditions, ages 0-100. -/
def exampleCfg : FilterCfg := ⟨some 2022, none, 0, 100⟩

/-! ### Helper lemmas -/

/-- Two list filters commute. -/
theorem filter_swap {α : Type} (p q : α → Bool) (l : List α) :
    (l.filter p).filter q = (l.filter q).filter p := by
  induction l with
  | nil => rfl
  | cons a l ih =>
      by_cases hp : p a <;> by_cases hq : q a <;>
        simp [List.filter_cons, hp, hq, ih]

/-- The three-step filter collapses to one filter by the conjunction of
the three predicates. -/
theorem applyFilters_eq_filter (t : List Record) (cfg : FilterCfg) :
    applyFilters t cfg = t.filter (fullPred cfg) := by
  unfold applyFilters stepYear stepCond stepAge fullPred
  cases hy : cfg.year <;> cases hc : cfg.condition <;>
    simp [List.filter_filter, Bool.and_comm, Bool.and_assoc, Bool.and_left_comm]

/-- Membership in the filtered view, unfolded to the three predicates. -/
theorem mem_applyFilters (t : List Record) (cfg : FilterCfg) (r : Record) :
    r ∈ applyFilters t cfg ↔
      r ∈ t ∧
      (∀ y, cfg.year = some y → r.date_of_admission.map PDate.year = some y) ∧
      (∀ c, cfg.condition = some c → r.medical_condition = c) ∧
      (cfg.ageLo ≤ r.age ∧ r.age ≤ cfg.ageHi) := by
  rw [applyFilters_eq_filter, List.mem_filter]
  unfold fullPred yearMatches condMatches ageMatches
  cases hy : cfg.year <;> cases hc : cfg.condition <;>
    simp [beq_iff_eq, and_assoc]

/-- Closed form of the age bucketing: five `(lo, hi]` intervals. -/
theorem pdCut_age_eq (v : ℤ) :
    pdCut v ageBins ageLabels =
      if 0 < v ∧ v ≤ 18 then some "Anak (0-18)"
      else if 18 < v ∧ v ≤ 35 then some "Dewasa Muda (19-35)"
      else if 35 < v ∧ v ≤ 50 then some "Dewasa (36-50)"
      else if 50 < v ∧ v ≤ 65 then some "Lansia (51-65)"
      else if 65 < v ∧ v ≤ 100 then some "Manula (65+)"
      else none := by
  simp only [ageBins, ageLabels, pdCut]

/-- Closed form of membership in the i-th age bucket. -/
theorem ageInterval_iff (i : ℕ) (v : ℤ) :
    ageInterval i v ↔
      (i = 0 ∧ 0 < v ∧ v ≤ 18) ∨ (i = 1 ∧ 18 < v ∧ v ≤ 35) ∨
      (i = 2 ∧ 35 < v ∧ v ≤ 50) ∨ (i = 3 ∧ 50 < v ∧ v ≤ 65) ∨
      (i = 4 ∧ 65 < v ∧ v ≤ 100) := by
  unfold ageInterval ageBins
  match i with
  | 0 => simp
  | 1 => simp
  | 2 => simp
  | 3 => simp
  | 4 => simp
  | n + 5 => simp

/-! ### Claim theorems -/

/-- C5: the cleaned billing amount computed at load time equals
max(billing_amount, 0): it is always nonnegative, equals the raw amount
whenever that is nonnegative, and a raw value of -500 yields 0; the
record is floored, not discarded (the loaded row keeps all other fields). -/
theorem billing_clip_correct (r : RawRecord) :
    (loadRecord r).billing_amount = max r.billing_amount 0 ∧
    0 ≤ (loadRecord r).billing_amount ∧
    (0 ≤ r.billing_amount → (loadRecord r).billing_amount = r.billing_amount) ∧
    (r.billing_amount = -500 → (loadRecord r).billing_amount = 0) ∧
    (loadRecord r).age = r.age := by
  refine ⟨rfl, le_max_right _ _, fun h => max_eq_left h, fun h => ?_, rfl⟩
  simp [loadRecord, h]

/-- A raw row whose billing amount is -500. -/
def rawNegBilling : RawRecord :=
  ⟨some ⟨2021, 18700⟩, some ⟨2021, 18704⟩, 45, "Asthma", "Normal", -500⟩

/-- Witness for C5: the -500 row is floored to 0 and a nonnegative row
is unchanged. -/
theorem billing_clip_correct_witness :
    (loadRecord rawNegBilling).billing_amount = 0 ∧
    (loadRecord { rawNegBilling with billing_amount := 7 }).billing_amount = 7 :=
  ⟨(billing_clip_correct rawNegBilling).2.2.2.1 rfl,
   (billing_clip_correct { rawNegBilling with billing_amount := 7 }).2.2.1 (by norm_num)⟩

/-- C6: `length_of_stay` is the discharge day minus the admission day
when both dates parsed, and is null exactly when at least one of the two
date fields failed to parse (its parse result is null). -/
theorem length_of_stay_null_iff (r : RawRecord) :
    ((loadRecord r).length_of_stay = none ↔
      r.date_of_admission = none ∨ r.discharge_date = none) ∧
    (∀ a d, r.date_of_admission = some a → r.discharge_date = some d →
      (loadRecord r).length_of_stay = some (d.day - a.day)) := by
  cases ha : r.date_of_admission <;> cases hd : r.discharge_date <;>
    simp [loadRecord, ha, hd]

/-- A raw row with both dates parsed, seven days apart. -/
def rawBothDates : RawRecord :=
  ⟨some ⟨2020, 18300⟩, some ⟨2020, 18307⟩, 52, "Cancer", "Abnormal", 900⟩

/-- Witness for C6: both dates parse, so the stay is the 7-day difference. -/
theorem length_of_stay_null_iff_witness :
    (loadRecord rawBothDates).length_of_stay = some 7 := by
  have h := (length_of_stay_null_iff rawBothDates).2 ⟨2020, 18300⟩ ⟨2020, 18307⟩ rfl rfl
  simpa using h

/-- C7: the filter keeps exactly the records satisfying the conjunction
of the active predicates (year of admission equals the selection unless
the all-years sentinel, condition equals the selection unless the
all-conditions sentinel, age inside the inclusive range); on the
two-row example table with year 2022, all conditions and ages 0-100 the
result is exactly the first row. -/
theorem filter_conjunction_semantics :
    (∀ (t : List Record) (cfg : FilterCfg) (r : Record),
      r ∈ applyFilters t cfg ↔
        r ∈ t ∧
        (∀ y, cfg.year = some y → r.date_of_admission.map PDate.year = some y) ∧
        (∀ c, cfg.condition = some c → r.medical_condition = c) ∧
        (cfg.ageLo ≤ r.age ∧ r.age ≤ cfg.ageHi)) ∧
    applyFilters exampleTable exampleCfg = [row2022] :=
  ⟨mem_applyFilters, rfl⟩

/-- C8: filtering an already-filtered view by the same predicate
configuration returns the identical record list. -/
theorem filter_idempotent_thm (t : List Record) (cfg : FilterCfg) :
    applyFilters (applyFilters t cfg) cfg = applyFilters t cfg := by
  simp only [applyFilters_eq_filter, List.filter_filter, Bool.and_self]

/-- C10: when a specific year is selected, a record whose admission date
failed to parse is excluded from the filtered result; under the
all-years sentinel it is retained subject to the other predicates only. -/
theorem null_admission_year_filter (t : List Record) (y : ℤ) (c : Option String)
    (lo hi : ℤ) (r : Record) :
    (r.date_of_admission = none → r ∉ applyFilters t ⟨some y, c, lo, hi⟩) ∧
    (r.date_of_admission = none →
      (r ∈ applyFilters t ⟨none, c, lo, hi⟩ ↔
        r ∈ t ∧ (∀ c0, c = some c0 → r.medical_condition = c0) ∧
          lo ≤ r.age ∧ r.age ≤ hi)) := by
  constructor
  · intro hnull hmem
    rw [mem_applyFilters] at hmem
    have hy := hmem.2.1 y rfl
    rw [hnull] at hy
    simp at hy
  · intro hnull
    rw [mem_applyFilters]
    simp

/-- A loaded row whose admission date failed to parse. -/
def rowNullDate : Record :=
  { date_of_admission := none
    discharge_date := some ⟨2022, 19200⟩
    age := 40
    medical_condition := "Obesity"
    test_results := "Inconclusive"
    billing_amount := 300
    length_of_stay := none }

/-- Witness for C10: the null-date row is dropped under year 2022 but
kept under the all-years sentinel. -/
theorem null_admission_year_filter_witness :
    rowNullDate ∉ applyFilters [rowNullDate] ⟨some 2022, none, 0, 100⟩ ∧
    rowNullDate ∈ applyFilters [rowNullDate] ⟨none, none, 0, 100⟩ :=
  ⟨(null_admission_year_filter [rowNullDate] 2022 none 0 100 rowNullDate).1 rfl,
   ((null_admission_year_filter [rowNullDate] 2022 none 0 100 rowNullDate).2 rfl).mpr
     ⟨by simp, by simp, by norm_num [rowNullDate], by norm_num [rowNullDate]⟩⟩

/-- C4: applying the year, condition and age predicates in any of the
six orders yields the same record list as the program order
(year, then condition, then age). -/
theorem filter_order_independent (t : List Record) (cfg : FilterCfg) :
    stepAge cfg (stepYear cfg (stepCond cfg t)) = applyFilters t cfg ∧
    stepCond cfg (stepAge cfg (stepYear cfg t)) = applyFilters t cfg ∧
    stepCond cfg (stepYear cfg (stepAge cfg t)) = applyFilters t cfg ∧
    stepYear cfg (stepAge cfg (stepCond cfg t)) = applyFilters t cfg ∧
    stepYear cfg (stepCond cfg (stepAge cfg t)) = applyFilters t cfg := by
  unfold applyFilters stepYear stepCond stepAge
  cases cfg.year <;> cases cfg.condition <;>
    refine ⟨?_, ?_, ?_, ?_, ?_⟩ <;>
      simp [List.filter_filter, Bool.and_comm, Bool.and_left_comm, Bool.and_assoc]

/-- C3: the bucketing output has one entry per input value (nothing is
dropped and nothing crashes, the function being total), and every value
either lies in exactly one bucket interval and receives that bucket's
label, or lies in no interval — which happens exactly when it is outside
the covered range — and is marked unbucketed (null). -/
theorem bucketing_total_unique (vs : List ℤ) :
    (bucketAges vs).length = vs.length ∧
    ∀ v : ℤ,
      ((∃ i, ageInterval i v ∧ (∀ j, ageInterval j v → j = i) ∧
          pdCut v ageBins ageLabels = ageLabels.get? i) ∧
        pdCut v ageBins ageLabels ≠ none) ∨
      ((∀ i, ¬ ageInterval i v) ∧ pdCut v ageBins ageLabels = none ∧
        (v ≤ 0 ∨ 100 < v)) := by
  constructor
  · simp [bucketAges]
  · intro v
    by_cases h1 : 0 < v ∧ v ≤ 18
    · exact Or.inl ⟨⟨0, (ageInterval_iff 0 v).mpr (by omega),
        fun j hj => by have := (ageInterval_iff j v).mp hj; omega,
        by rw [pdCut_age_eq, if_pos h1]; rfl⟩,
        by rw [pdCut_age_eq, if_pos h1]; simp⟩
    by_cases h2 : 18 < v ∧ v ≤ 35
    · exact Or.inl ⟨⟨1, (ageInterval_iff 1 v).mpr (by omega),
        fun j hj => by have := (ageInterval_iff j v).mp hj; omega,
        by rw [pdCut_age_eq, if_neg h1, if_pos h2]; rfl⟩,
        by rw [pdCut_age_eq, if_neg h1, if_pos h2]; simp⟩
    by_cases h3 : 35 < v ∧ v ≤ 50
    · exact Or.inl ⟨⟨2, (ageInterval_iff 2 v).mpr (by omega),
        fun j hj => by have := (ageInterval_iff j v).mp hj; omega,
        by rw [pdCut_age_eq, if_neg h1, if_neg h2, if_pos h3]; rfl⟩,
        by rw [pdCut_age_eq, if_neg h1, if_neg h2, if_pos h3]; simp⟩
    by_cases h4 : 50 < v ∧ v ≤ 65
    · exact Or.inl ⟨⟨3, (ageInterval_iff 3 v).mpr (by omega),
        fun j hj => by have := (ageInterval_iff j v).mp hj; omega,
        by rw [pdCut_age_eq, if_neg h1, if_neg h2, if_neg h3, if_pos h4]; rfl⟩,
        by rw [pdCut_age_eq, if_neg h1, if_neg h2, if_neg h3, if_pos h4]; simp⟩
    by_cases h5 : 65 < v ∧ v ≤ 100
    · exact Or.inl ⟨⟨4, (ageInterval_iff 4 v).mpr (by omega),
        fun j hj => by have := (ageInterval_iff j v).mp hj; omega,
        by rw [pdCut_age_eq, if_neg h1, if_neg h2, if_neg h3, if_neg h4, if_pos h5]; rfl⟩,
        by rw [pdCut_age_eq, if_neg h1, if_neg h2, if_neg h3, if_neg h4, if_pos h5]; simp⟩
    · exact Or.inr ⟨fun i hi => by have := (ageInterval_iff i v).mp hi; omega,
        by rw [pdCut_age_eq, if_neg h1, if_neg h2, if_neg h3, if_neg h4, if_neg h5],
        by omega⟩

/-- C2 counterexample: at the boundary value 18 the spec's half-open
reading (18 lies in the second interval since 18 ≤ 18 < 35) would demand
the second label, but the code's `pd.cut` assigns the first label, the
intervals being low-exclusive and high-inclusive; likewise the value 0
satisfies the spec's first interval yet is left unbucketed by the code. -/
theorem pdcut_boundary_cex :
    ((18 : ℤ) ≤ 18 ∧ (18 : ℤ) < 35) ∧
    pdCut 18 ageBins ageLabels = some "Anak (0-18)" ∧
    pdCut 18 ageBins ageLabels ≠ some "Dewasa Muda (19-35)" ∧
    specBucket 18 ageBins ageLabels = some "Dewasa Muda (19-35)" ∧
    ((0 : ℤ) ≤ 0 ∧ (0 : ℤ) < 18) ∧
    pdCut 0 ageBins ageLabels = none ∧
    specBucket 0 ageBins ageLabels = some "Anak (0-18)" :=
  ⟨by norm_num, rfl, by decide, rfl, by norm_num, rfl, rfl⟩

/-- C2 amended: the bucketing assigns label Li exactly when
b(i-1) < v ≤ b(i) — low exclusive, high inclusive, for every interval
including the first (a value equal to the lowest boundary, or above the
highest, is unbucketed); the example ages [10, 25, 40, 90] still receive
the first, second, third and fifth labels. -/
theorem pdcut_interval_semantics :
    (∀ v : ℤ, pdCut v ageBins ageLabels =
      if 0 < v ∧ v ≤ 18 then some "Anak (0-18)"
      else if 18 < v ∧ v ≤ 35 then some "Dewasa Muda (19-35)"
      else if 35 < v ∧ v ≤ 50 then some "Dewasa (36-50)"
      else if 50 < v ∧ v ≤ 65 then some "Lansia (51-65)"
      else if 65 < v ∧ v ≤ 100 then some "Manula (65+)"
      else none) ∧
    bucketAges [10, 25, 40, 90] =
      [some "Anak (0-18)", some "Dewasa Muda (19-35)",
       some "Dewasa (36-50)", some "Manula (65+)"] :=
  ⟨pdCut_age_eq, rfl⟩

/-- The sidebar's default configuration: all years, all conditions,
the default age-slider value (13, 89). -/
def cfgDefault : FilterCfg := ⟨none, none, 13, 89⟩

/-- C1 counterexample: on the empty table the filtered result is empty
and all three quick-stat aggregates evaluate to NaN (the pandas mean of
an empty series) — not to any explicit no-data value. -/
theorem empty_metrics_nan_cex :
    applyFilters [] cfgDefault = [] ∧
    avgStay (applyFilters [] cfgDefault) = PFloat.nan ∧
    avgBill (applyFilters [] cfgDefault) = PFloat.nan ∧
    recoveryRate (applyFilters [] cfgDefault) = PFloat.nan :=
  ⟨rfl, rfl, rfl, rfl⟩

/-- C1 amended: whenever the filtered result is empty, the three
aggregate metrics (average stay, average billing, recovery rate) all
evaluate to NaN; the code formats that NaN directly and has no explicit
no-data branch (no exception is raised — the metrics are total). -/
theorem empty_filter_metrics_nan (t : List Record) (cfg : FilterCfg)
    (h : applyFilters t cfg = []) :
    avgStay (applyFilters t cfg) = PFloat.nan ∧
    avgBill (applyFilters t cfg) = PFloat.nan ∧
    recoveryRate (applyFilters t cfg) = PFloat.nan := by
  rw [h]
  exact ⟨rfl, rfl, rfl⟩

/-- Witness for the amended C1: a one-row table filtered by a year that
matches nothing gives an empty view, and the metrics are NaN. -/
theorem empty_filter_metrics_nan_witness :
    avgStay (applyFilters [row2023] ⟨some 1999, none, 0, 100⟩) = PFloat.nan ∧
    avgBill (applyFilters [row2023] ⟨some 1999, none, 0, 100⟩) = PFloat.nan ∧
    recoveryRate (applyFilters [row2023] ⟨some 1999, none, 0, 100⟩) = PFloat.nan :=
  empty_filter_metrics_nan [row2023] ⟨some 1999, none, 0, 100⟩ rfl

/-- C9: after the whole pipeline — copy, the three filters, and the
in-place `kelompok_usia` column assignment on the filtered object — the
cached table at identity 0 still holds the original rows and no derived
column; the object `filtered_df` ends bound to is a different identity,
and it holds the filtered rows with the bucketed age column. -/
theorem source_table_unmutated (df : List Record) (cfg : FilterCfg) :
    hRead (dashboardPipeline df cfg).1.heap 0 = some ⟨df, none⟩ ∧
    (dashboardPipeline df cfg).2 ≠ 0 ∧
    hRead (dashboardPipeline df cfg).1.heap (dashboardPipeline df cfg).2 =
      some ⟨applyFilters df cfg,
            some (bucketAges ((applyFilters df cfg).map Record.age))⟩ := by
  obtain ⟨y, c, lo, hi⟩ := cfg
  cases y <;> cases c <;>
    simp [dashboardPipeline, hAlloc, hWrite, hRead, List.find?]
